import Mathlib

/-!
Shallow embedding of the build orchestration pipeline of
`cmd/image-builder/main.go` from the image-builder CLI.

The orchestration code (`cmdBuild`, `cmdManifest`, `cmdManifestWrapper`,
`progressFromCmd`, `outputNameFor`) is translated directly from the Go
source.  The external collaborators it calls (blueprint loader, image
selection, manifest engine, build engine, upload client, progress-bar
factory) are opaque to the orchestrator; one invocation calls each of
them at most once, so their outcomes are modelled as fixed values in an
`Env` record.  Each invocation produces a result together with a trace
of observable events, which the theorems below inspect for ordering and
reachability properties.
-/

namespace ImageBuilderCli

/-- error value coming back from an external collaborator (blueprint
loader, image resolver, manifest engine, build engine, upload client,
progress factory); its message is opaque to the orchestrator. -/
structure ExtErr where
  msg : String
deriving Repr, DecidableEq

/-- resolved build target as produced by `getOneImage`: the names of the
distribution, image type and architecture, plus the image type's
canonical artifact filename (`ImgType.Filename()`). -/
structure ImageDescriptor where
  distro : String
  imgType : String
  arch : String
  filename : String
deriving Repr, DecidableEq

/-- blueprint as returned by `blueprintload.Load`; the orchestration
code only consults its `Distro` field.  The empty string stands for an
unset distro. -/
structure Blueprint where
  distro : String
deriving Repr, DecidableEq

/-- command-line flags consulted by `cmdBuild` / `cmdManifestWrapper`.
As in the Go code, the empty string stands for an unset string flag. -/
structure Flags where
  arch : String
  distro : String
  blueprint : String
  outputDir : String
  progress : String
  verbose : Bool
  withManifest : Bool
  cache : String
  awsAmiName : String
  awsBucket : String
  awsRegion : String
deriving Repr, DecidableEq

/-- error kinds produced by the upload configuration resolver
`uploaderFor`: the two soft kinds `cmdBuild` recognises by type
(`MissingUploadConfigError` with its `allMissing` field, and
`UploadTypeUnsupportedError`), plus the ordinary fatal error returned
when upload flags were supplied for an image type that supports no
upload. -/
inductive UploadErr where
  | missingUploadConfig (allMissing : Bool)
  | typeUnsupported (typeName : String)
  | unsupportedWithFlags (typeName : String)
deriving Repr, DecidableEq

/-- classified pipeline errors.  Errors surfaced verbatim from external
collaborators are `ext`; the orchestration-level errors visible in the
source are the architecture mismatch of `cmdBuild`'s arch checker, the
"partial upload config provided" error, and the fatal
unsupported-upload-with-flags error. -/
inductive Err where
  | ext (e : ExtErr)
  | archMismatch (target host : String)
  | invalidUploadConfig
  | uploadUnsupportedWithFlags (typeName : String)
deriving Repr, DecidableEq

/-- observable operations of one pipeline invocation, recorded in
execution order. -/
inductive Event where
  | progressCreate (kind : String)
  | pbarStart
  | pbarStop
  | pulse (msg : String)
  | detail (msg : String)
  | blueprintLoad
  | resolveImage (distro imgType arch : String)
  | archCheck (archName : String)
  | manifestGen
  | uploadAccessCheck
  | buildExec (outputDir : String)
  | dataTransfer (imagePath : String)
deriving Repr, DecidableEq

/-- outcomes of the external collaborator calls during one invocation;
each collaborator is called at most once per invocation, so one fixed
outcome per call models an arbitrary invocation. -/
structure Env where
  hostArch : String
  progressNew : Except ExtErr Unit
  blueprintLoad : Except ExtErr Blueprint
  getOneImage : Except ExtErr ImageDescriptor
  generateManifest : Except ExtErr Unit
  checkAccess : Except ExtErr Unit
  buildImage : Except ExtErr Unit
  uploadImage : Except ExtErr Unit

/-- embeds `outputNameFor` (main.go lines 31-33): the default output
directory name `distro-imagetype-arch` for a resolved image. -/
def outputNameFor (img : ImageDescriptor) : String :=
  img.distro ++ "-" ++ img.imgType ++ "-" ++ img.arch

/-- Modelled from the spec: `findDistro` is called by the source but its
definition is not part of the provided source files.  Per spec section
4.2 step (b) it prefers the explicit flag value, else the blueprint's
declared distro, else a built-in default. -/
def findDistro (flagDistro bpDistro : String) : String :=
  if flagDistro ≠ "" then flagDistro
  else if bpDistro ≠ "" then bpDistro
  else "host-distro"

/-- true when at least one of the aws upload flags was supplied. -/
def anyUploadFlagSet (fl : Flags) : Bool :=
  fl.awsAmiName != "" || fl.awsBucket != "" || fl.awsRegion != ""

/-- true when every aws upload flag was supplied. -/
def allUploadFlagsSet (fl : Flags) : Bool :=
  fl.awsAmiName != "" && fl.awsBucket != "" && fl.awsRegion != ""

/-- Modelled from the spec: the upload configuration resolver
`uploaderFor` is called by `cmdBuild` but its definition is not part of
the provided source files.  Per spec section 4.1 and the flag help text
("only for type=ami"), AMI is the one supported upload target.  All aws
fields present yields a ready uploader; none present yields the missing
config error with `allMissing` set; some but not all present yields the
missing config error with `allMissing` unset; an image type without
upload support yields the soft unsupported-type error when no upload
flag was supplied and an ordinary fatal error when one was. -/
def uploaderFor (fl : Flags) (typeName : String) : Option Unit × Option UploadErr :=
  if typeName == "ami" then
    if allUploadFlagsSet fl then (some (), none)
    else (none, some (.missingUploadConfig (!anyUploadFlagSet fl)))
  else
    if anyUploadFlagSet fl then (none, some (.unsupportedWithFlags typeName))
    else (none, some (.typeUnsupported typeName))

/-- embeds `progressFromCmd` (lines 181-195): the progress kind handed
to `progress.New` for a build invocation. -/
def progressFromCmd (fl : Flags) : String :=
  if fl.progress == "auto" && fl.verbose then "verbose" else fl.progress

/-- embeds the inline arch checker closure of `cmdBuild` (lines
225-230): building is only allowed for the host architecture. -/
def buildArchChecker (hostArch archStr : String) : Except Err Unit :=
  if archStr ≠ hostArch then .error (.archMismatch archStr hostArch) else .ok ()

/-- embeds `cmdManifestWrapper` (lines 81-170): load the blueprint,
resolve the effective distro, emit the progress pulse and detail
message, resolve the image, run the caller's arch checker if any, and
generate the manifest. -/
def cmdManifestWrapper (env : Env) (fl : Flags) (imgTypeStr : String)
    (archChecker : Option (String → Except Err Unit)) :
    Except Err ImageDescriptor × List Event :=
  let archStr := if fl.arch = "" then env.hostArch else fl.arch
  match env.blueprintLoad with
  | .error e => (.error (.ext e), [Event.blueprintLoad])
  | .ok bp =>
      let distroStr := findDistro fl.distro bp.distro
      let tr := [Event.blueprintLoad,
                 Event.pulse "Manifest generation step",
                 Event.detail ("Building manifest for " ++ distroStr ++ "-" ++ imgTypeStr),
                 Event.resolveImage distroStr imgTypeStr archStr]
      match env.getOneImage with
      | .error e => (.error (.ext e), tr)
      | .ok img =>
          match archChecker with
          | some checker =>
              match checker img.arch with
              | .error e => (.error e, tr ++ [Event.archCheck img.arch])
              | .ok _ =>
                  match env.generateManifest with
                  | .error e =>
                      (.error (.ext e), tr ++ [Event.archCheck img.arch, Event.manifestGen])
                  | .ok _ => (.ok img, tr ++ [Event.archCheck img.arch, Event.manifestGen])
          | none =>
              match env.generateManifest with
              | .error e => (.error (.ext e), tr ++ [Event.manifestGen])
              | .ok _ => (.ok img, tr ++ [Event.manifestGen])

/-- the effective output directory of the build stage (lines 254-256):
the `--output-dir` flag, defaulted to `outputNameFor`. -/
def effectiveOutputDir (fl : Flags) (img : ImageDescriptor) : String :=
  if fl.outputDir = "" then outputNameFor img else fl.outputDir

/-- the artifact path handed to the upload client (line 270):
`filepath.Join(outputDir, typeName, filename)`. -/
def artifactPath (fl : Flags) (img : ImageDescriptor) : String :=
  effectiveOutputDir fl img ++ "/" ++ img.imgType ++ "/" ++ img.filename

/-- build step of `cmdBuild` (lines 252-275): emit the build pulse, run
the build engine, and when an uploader is present stop the progress bar
and transfer the artifact. -/
def buildPhase (env : Env) (fl : Flags) (img : ImageDescriptor) (uploader : Option Unit) :
    Except Err Unit × List Event :=
  let pre := [Event.pulse "Image building step", Event.buildExec (effectiveOutputDir fl img)]
  match env.buildImage with
  | .error e => (.error (.ext e), pre)
  | .ok _ =>
      match uploader with
      | some _ =>
          let pre2 := pre ++ [Event.pbarStop, Event.dataTransfer (artifactPath fl img)]
          match env.uploadImage with
          | .error e => (.error (.ext e), pre2)
          | .ok _ => (.ok (), pre2)
      | none => (.ok (), pre)

/-- access-check step of `cmdBuild` (lines 245-250) followed by the
build step: when an uploader is present, check cloud access first. -/
def uploadCheckPhase (env : Env) (fl : Flags) (img : ImageDescriptor) (uploader : Option Unit) :
    Except Err Unit × List Event :=
  match uploader with
  | some _ =>
      let pre := [Event.pulse "Checking cloud access", Event.uploadAccessCheck]
      match env.checkAccess with
      | .error e => (.error (.ext e), pre)
      | .ok _ =>
          let r := buildPhase env fl img uploader
          (r.1, pre ++ r.2)
  | none => buildPhase env fl img uploader

/-- upload-configuration resolution and error routing of `cmdBuild`
(lines 235-243), then the remaining phases: an error that is neither
the missing-config nor the unsupported-type kind is returned verbatim;
a missing-config error with `allMissing` unset becomes the fatal
partial-config error; both soft kinds fall through with a nil
uploader. -/
def resolveUploadPhase (env : Env) (fl : Flags) (img : ImageDescriptor) :
    Except Err Unit × List Event :=
  match uploaderFor fl img.imgType with
  | (_, some (.unsupportedWithFlags t)) => (.error (.uploadUnsupportedWithFlags t), [])
  | (uploader, some (.missingUploadConfig allMissing)) =>
      if !allMissing then (.error .invalidUploadConfig, [])
      else uploadCheckPhase env fl img uploader
  | (uploader, some (.typeUnsupported _)) => uploadCheckPhase env fl img uploader
  | (uploader, none) => uploadCheckPhase env fl img uploader

/-- embeds `cmdBuild` (lines 197-278): create the progress bar, start
it, generate the manifest with the host-arch checker, resolve the
upload configuration, and run the remaining phases.  The deferred
`pbar.Stop()` is appended to the trace of every path that started the
bar. -/
def cmdBuild (env : Env) (fl : Flags) (imgTypeStr : String) :
    Except Err Unit × List Event :=
  match env.progressNew with
  | .error e => (.error (.ext e), [Event.progressCreate (progressFromCmd fl)])
  | .ok _ =>
      match cmdManifestWrapper env fl imgTypeStr (some (buildArchChecker env.hostArch)) with
      | (.error e, wtr) =>
          (.error e,
           Event.progressCreate (progressFromCmd fl) :: Event.pbarStart ::
             (wtr ++ [Event.pbarStop]))
      | (.ok img, wtr) =>
          ((resolveUploadPhase env fl img).1,
           Event.progressCreate (progressFromCmd fl) :: Event.pbarStart ::
             (wtr ++ (resolveUploadPhase env fl img).2 ++ [Event.pbarStop]))

/-- embeds `cmdManifest` (lines 172-179): a plain progress bar, the
wrapper with no arch checker, and the manifest written to stdout. -/
def cmdManifest (env : Env) (fl : Flags) (imgTypeStr : String) :
    Except Err Unit × List Event :=
  match env.progressNew with
  | .error e => (.error (.ext e), [Event.progressCreate ""])
  | .ok _ =>
      match cmdManifestWrapper env fl imgTypeStr none with
      | (.error e, wtr) => (.error e, Event.progressCreate "" :: wtr)
      | (.ok _, wtr) => (.ok (), Event.progressCreate "" :: wtr)

/-- recognises the data-transfer event. -/
def isDataTransfer : Event → Bool
  | .dataTransfer _ => true
  | _ => false

/-- recognises the image-resolution event. -/
def isResolveImage : Event → Bool
  | .resolveImage _ _ _ => true
  | _ => false

/-- recognises the "Manifest generation step" pulse. -/
def isManifestPulse : Event → Bool
  | .pulse m => m == "Manifest generation step"
  | _ => false

/-- projection of a trace onto the four pipeline phases of claim C1:
0 = manifest generation, 1 = build execution, 2 = upload access check,
3 = data transfer. -/
def phaseTag : Event → Option Nat
  | .manifestGen => some 0
  | .buildExec _ => some 1
  | .uploadAccessCheck => some 2
  | .dataTransfer _ => some 3
  | _ => none

/-- the pipeline-phase events of a trace, in order. -/
def phases (tr : List Event) : List Nat := tr.filterMap phaseTag

/-- projection of a trace onto build execution (`false`) and data
transfer (`true`). -/
def buildThenTransferTag : Event → Option Bool
  | .buildExec _ => some false
  | .dataTransfer _ => some true
  | _ => none

/-- projection of a trace onto the manifest-stage reporting and
resolution events: 0 = image resolution, 1 = the "Manifest generation
step" pulse, 2 = the detail message. -/
def resolvePulseTag : Event → Option Nat
  | .pulse m => if m == "Manifest generation step" then some 1 else none
  | .detail _ => some 2
  | .resolveImage _ _ _ => some 0
  | _ => none

/-- the kinds with which a progress reporter was created in a trace. -/
def createTag : Event → Option String
  | .progressCreate k => some k
  | _ => none

/-- the list of progress-reporter kinds created during a trace. -/
def createdKinds (tr : List Event) : List String := tr.filterMap createTag

/-- some event satisfying `p` occurs strictly before some event
satisfying `q` in the trace. -/
def occursBefore (p q : Event → Bool) (tr : List Event) : Prop :=
  ∃ i : Fin tr.length, ∃ j : Fin tr.length,
    (i : Nat) < (j : Nat) ∧ p (tr.get i) = true ∧ q (tr.get j) = true

/-- events that the manifest wrapper can emit. -/
def manifestStageEvent : Event → Bool
  | .blueprintLoad => true
  | .pulse _ => true
  | .detail _ => true
  | .resolveImage _ _ _ => true
  | .archCheck _ => true
  | .manifestGen => true
  | _ => false

/-- events that the post-manifest phases of `cmdBuild` can emit. -/
def uploadBuildStageEvent : Event → Bool
  | .pulse _ => true
  | .uploadAccessCheck => true
  | .buildExec _ => true
  | .pbarStop => true
  | .dataTransfer _ => true
  | _ => false

instance (p q : Event → Bool) (tr : List Event) : Decidable (occursBefore p q tr) := by
  unfold occursBefore; infer_instance

/-- empty blueprint, as produced for an absent `--blueprint` flag. -/
def bpEmpty : Blueprint := ⟨""⟩

/-- resolved ami target on the host architecture. -/
def imgAmi : ImageDescriptor := ⟨"centos-9", "ami", "x86_64", "image.raw"⟩

/-- resolved qcow2 target on the host architecture. -/
def imgQcow : ImageDescriptor := ⟨"fedora-42", "qcow2", "x86_64", "disk.qcow2"⟩

/-- resolved qcow2 target on a foreign architecture. -/
def imgArm : ImageDescriptor := ⟨"fedora-42", "qcow2", "aarch64", "disk.qcow2"⟩

/-- an environment on an x86_64 host in which every external call succeeds
and image resolution yields `img`. -/
def envOk (img : ImageDescriptor) : Env :=
  ⟨"x86_64", .ok (), .ok bpEmpty, .ok img, .ok (), .ok (), .ok (), .ok ()⟩

/-- defaults of every flag relevant to the pipeline. -/
def flagsBare : Flags :=
  ⟨"", "", "", "", "auto", false, false, "/var/cache/image-builder/store", "", "", ""⟩

/-- a full aws upload configuration. -/
def flagsAws : Flags :=
  { flagsBare with awsAmiName := "myimg", awsBucket := "bucket", awsRegion := "us-east-1" }

/-- only the bucket supplied, region and name omitted. -/
def flagsBucketOnly : Flags :=
  { flagsBare with awsBucket := "mybucket" }

/-- a cross-architecture build request. -/
def flagsArm : Flags :=
  { flagsBare with arch := "aarch64" }

/-- an explicit distro selection. -/
def flagsFedora : Flags :=
  { flagsBare with distro := "fedora-42" }

theorem wrapper_events_bound (env : Env) (fl : Flags) (t : String)
    (chk : Option (String → Except Err Unit)) :
    ∀ e ∈ (cmdManifestWrapper env fl t chk).2, manifestStageEvent e = true := by
  unfold cmdManifestWrapper
  repeat' split
  all_goals intro e he
  all_goals fin_cases he <;> rfl

theorem wrapper_no_buildExec (env : Env) (fl : Flags) (t : String)
    (chk : Option (String → Except Err Unit)) (d : String) :
    Event.buildExec d ∉ (cmdManifestWrapper env fl t chk).2 := by
  intro h
  simpa [manifestStageEvent] using wrapper_events_bound env fl t chk _ h

theorem wrapper_no_transfer (env : Env) (fl : Flags) (t : String)
    (chk : Option (String → Except Err Unit)) (p : String) :
    Event.dataTransfer p ∉ (cmdManifestWrapper env fl t chk).2 := by
  intro h
  simpa [manifestStageEvent] using wrapper_events_bound env fl t chk _ h

theorem wrapper_no_accessCheck (env : Env) (fl : Flags) (t : String)
    (chk : Option (String → Except Err Unit)) :
    Event.uploadAccessCheck ∉ (cmdManifestWrapper env fl t chk).2 := by
  intro h
  simpa [manifestStageEvent] using wrapper_events_bound env fl t chk _ h

theorem wrapper_ok (env : Env) (fl : Flags) (t : String) (bp : Blueprint)
    (img : ImageDescriptor) (hbl : env.blueprintLoad = .ok bp)
    (hgoi : env.getOneImage = .ok img) (hgm : env.generateManifest = .ok ())
    (harch : img.arch = env.hostArch) :
    cmdManifestWrapper env fl t (some (buildArchChecker env.hostArch)) =
      (.ok img,
       [Event.blueprintLoad, Event.pulse "Manifest generation step",
        Event.detail ("Building manifest for " ++ findDistro fl.distro bp.distro ++ "-" ++ t),
        Event.resolveImage (findDistro fl.distro bp.distro) t
          (if fl.arch = "" then env.hostArch else fl.arch),
        Event.archCheck img.arch, Event.manifestGen]) := by
  simp [cmdManifestWrapper, hbl, hgoi, hgm, buildArchChecker, harch]

theorem wrapper_mismatch (env : Env) (fl : Flags) (t : String) (bp : Blueprint)
    (img : ImageDescriptor) (hbl : env.blueprintLoad = .ok bp)
    (hgoi : env.getOneImage = .ok img) (hne : img.arch ≠ env.hostArch) :
    cmdManifestWrapper env fl t (some (buildArchChecker env.hostArch)) =
      (.error (.archMismatch img.arch env.hostArch),
       [Event.blueprintLoad, Event.pulse "Manifest generation step",
        Event.detail ("Building manifest for " ++ findDistro fl.distro bp.distro ++ "-" ++ t),
        Event.resolveImage (findDistro fl.distro bp.distro) t
          (if fl.arch = "" then env.hostArch else fl.arch),
        Event.archCheck img.arch]) := by
  simp [cmdManifestWrapper, hbl, hgoi, buildArchChecker, hne]

theorem wrapper_err_ext (env : Env) (fl : Flags) (t : String) (e : Err)
    (h : (cmdManifestWrapper env fl t none).1 = .error e) : ∃ x, e = Err.ext x := by
  unfold cmdManifestWrapper at h
  repeat' split at h
  all_goals simp_all
  all_goals exact ⟨_, h.symm⟩

theorem wrapper_none_no_archCheck (env : Env) (fl : Flags) (t s : String) :
    Event.archCheck s ∉ (cmdManifestWrapper env fl t none).2 := by
  unfold cmdManifestWrapper
  repeat' split
  all_goals intro h
  all_goals simp_all

theorem wrapper_ok_phases (env : Env) (fl : Flags) (t : String)
    (chk : Option (String → Except Err Unit)) (img : ImageDescriptor) (wtr : List Event)
    (h : cmdManifestWrapper env fl t chk = (.ok img, wtr)) :
    phases wtr = [0] := by
  unfold cmdManifestWrapper at h
  repeat' split at h
  all_goals simp only [Prod.mk.injEq] at h
  all_goals obtain ⟨h1, h2⟩ := h
  all_goals subst h2
  all_goals
    first
      | exact Except.noConfusion h1
      | (injection h1 with h1
         subst h1
         simp [phases, phaseTag])

theorem uploaderFor_some (fl : Flags) (ty : String) (u : Unit) (e : Option UploadErr)
    (h : uploaderFor fl ty = (some u, e)) : e = none := by
  unfold uploaderFor at h
  repeat' split at h
  all_goals simp_all

theorem uploaderFor_none (fl : Flags) (ty : String) (u : Option Unit)
    (h : uploaderFor fl ty = (u, none)) : u = some () := by
  unfold uploaderFor at h
  repeat' split at h
  all_goals simp_all

theorem allUploadFlagsSet_false_of_any_false (fl : Flags)
    (h : anyUploadFlagSet fl = false) : allUploadFlagsSet fl = false := by
  simp [anyUploadFlagSet] at h
  simp [allUploadFlagsSet, h.1]

theorem resolve_noflags (env : Env) (fl : Flags) (img : ImageDescriptor)
    (h : anyUploadFlagSet fl = false) :
    resolveUploadPhase env fl img = buildPhase env fl img none := by
  have hall := allUploadFlagsSet_false_of_any_false fl h
  cases himg : img.imgType == "ami" <;>
    simp [resolveUploadPhase, uploaderFor, h, hall, himg, uploadCheckPhase]

theorem resolve_someNotAll (env : Env) (fl : Flags) (img : ImageDescriptor)
    (hsome : anyUploadFlagSet fl = true) (hnotall : allUploadFlagsSet fl = false) :
    (resolveUploadPhase env fl img).2 = [] ∧
    (img.imgType = "ami" → (resolveUploadPhase env fl img).1 = .error .invalidUploadConfig) := by
  cases himg : img.imgType == "ami" <;>
    simp_all [resolveUploadPhase, uploaderFor, hsome, hnotall, himg]

theorem resolve_unsupported_withflags (env : Env) (fl : Flags) (img : ImageDescriptor)
    (hne : img.imgType ≠ "ami") (hsome : anyUploadFlagSet fl = true) :
    resolveUploadPhase env fl img = (.error (.uploadUnsupportedWithFlags img.imgType), []) := by
  simp [resolveUploadPhase, uploaderFor, hne, hsome]

theorem resolve_events_bound (env : Env) (fl : Flags) (img : ImageDescriptor) :
    ∀ e ∈ (resolveUploadPhase env fl img).2, uploadBuildStageEvent e = true := by
  unfold resolveUploadPhase uploadCheckPhase buildPhase
  repeat' split
  all_goals intro e he
  all_goals simp_all
  all_goals rcases he with rfl | rfl | rfl | rfl | rfl | rfl <;> rfl

theorem resolve_transfer_shape (env : Env) (fl : Flags) (img : ImageDescriptor) (p : String)
    (h : Event.dataTransfer p ∈ (resolveUploadPhase env fl img).2) :
    env.buildImage = .ok () ∧
    (resolveUploadPhase env fl img).2 =
      [Event.pulse "Checking cloud access", Event.uploadAccessCheck,
       Event.pulse "Image building step", Event.buildExec (effectiveOutputDir fl img),
       Event.pbarStop, Event.dataTransfer (artifactPath fl img)] := by
  unfold resolveUploadPhase uploadCheckPhase buildPhase at h ⊢
  repeat' split at h
  all_goals simp_all

theorem resolve_buildExec_dir (env : Env) (fl : Flags) (img : ImageDescriptor) (d : String)
    (h : Event.buildExec d ∈ (resolveUploadPhase env fl img).2) :
    d = effectiveOutputDir fl img := by
  unfold resolveUploadPhase uploadCheckPhase buildPhase at h
  repeat' split at h
  all_goals simp_all

theorem createTag_none_manifestStage (e : Event) (h : manifestStageEvent e = true) :
    createTag e = none := by
  cases e <;> simp_all [manifestStageEvent, createTag]

theorem createTag_none_uploadBuildStage (e : Event) (h : uploadBuildStageEvent e = true) :
    createTag e = none := by
  cases e <;> simp_all [uploadBuildStageEvent, createTag]

theorem buildPhase_none_trace (env : Env) (fl : Flags) (img : ImageDescriptor) :
    (buildPhase env fl img none).2 =
      [Event.pulse "Image building step", Event.buildExec (effectiveOutputDir fl img)] := by
  cases h : env.buildImage <;> simp [buildPhase, h]

theorem isDataTransfer_false_manifestStage (e : Event) (h : manifestStageEvent e = true) :
    isDataTransfer e = false := by
  cases e <;> simp_all [manifestStageEvent, isDataTransfer]

theorem btTag_none_manifestStage (e : Event) (h : manifestStageEvent e = true) :
    buildThenTransferTag e = none := by
  cases e <;> simp_all [manifestStageEvent, buildThenTransferTag]

/-- Claim C1 (counterexample): on a fully successful upload-enabled build
the data transfer occurs, yet the phases are not in the claimed order
manifest, build, access check, transfer: the access check precedes the
build execution. -/
theorem c1_claimed_order_false :
    Event.dataTransfer "centos-9-ami-x86_64/ami/image.raw" ∈
      (cmdBuild (envOk imgAmi) flagsAws "ami").2 ∧
    phases (cmdBuild (envOk imgAmi) flagsAws "ami").2 ≠ [0, 1, 2, 3] ∧
    phases (cmdBuild (envOk imgAmi) flagsAws "ami").2 = [0, 2, 1, 3] := by
  decide

/-- Claim C1 (amended): whenever a build invocation reaches the data
transfer, the phase events occur in the order manifest generation, upload
access check, build execution, data transfer. -/
theorem c1_actual_phase_order (env : Env) (fl : Flags) (t p : String)
    (h : Event.dataTransfer p ∈ (cmdBuild env fl t).2) :
    phases (cmdBuild env fl t).2 = [0, 2, 1, 3] := by
  cases hpn : env.progressNew with
  | error e => simp [cmdBuild, hpn] at h
  | ok u =>
      rcases hpair : cmdManifestWrapper env fl t (some (buildArchChecker env.hostArch)) with ⟨r, wtr⟩
      have hnt := wrapper_no_transfer env fl t (some (buildArchChecker env.hostArch)) p
      rw [hpair] at hnt
      cases r with
      | error e =>
          simp [cmdBuild, hpn, hpair] at h
          exact absurd h hnt
      | ok img =>
          simp only [cmdBuild, hpn, hpair, List.mem_cons, List.mem_append,
                     List.mem_singleton] at h
          rcases h with h | h | h
          · exact absurd h (by simp)
          · exact absurd h (by simp)
          · rcases h with (h | h) | h
            · exact absurd h hnt
            · have hshape := resolve_transfer_shape env fl img p h
              have hph : List.filterMap phaseTag wtr = [0] := by
                have := wrapper_ok_phases env fl t (some (buildArchChecker env.hostArch)) img wtr hpair
                simpa [phases] using this
              simp [cmdBuild, hpn, hpair, phases, List.filterMap_append, hph,
                    hshape.2, phaseTag]
            · exact absurd h (by simp)

/-- Claim C1 (witness): the amended order theorem applied to a concrete
upload-enabled build. -/
theorem c1_actual_phase_order_witness :
    phases (cmdBuild (envOk imgAmi) flagsAws "ami").2 = [0, 2, 1, 3] :=
  c1_actual_phase_order (envOk imgAmi) flagsAws "ami"
    "centos-9-ami-x86_64/ami/image.raw" (by decide)

/-- Claim C2: with some but not all upload fields supplied, the build engine
is never invoked, and when the earlier stages succeed for the supported
upload target the pipeline fails with the partial-upload-configuration
error. -/
theorem c2_fail_fast_incomplete_upload (env : Env) (fl : Flags) (t d : String)
    (bp : Blueprint) (img : ImageDescriptor)
    (hsome : anyUploadFlagSet fl = true) (hnotall : allUploadFlagsSet fl = false) :
    Event.buildExec d ∉ (cmdBuild env fl t).2 ∧
    (env.progressNew = .ok () → env.blueprintLoad = .ok bp → env.getOneImage = .ok img →
      img.arch = env.hostArch → env.generateManifest = .ok () → img.imgType = "ami" →
      (cmdBuild env fl t).1 = .error .invalidUploadConfig) := by
  constructor
  case _ =>
    cases hpn : env.progressNew with
    | error e => simp [cmdBuild, hpn]
    | ok u =>
        rcases hpair : cmdManifestWrapper env fl t (some (buildArchChecker env.hostArch)) with ⟨r, wtr⟩
        have hnb := wrapper_no_buildExec env fl t (some (buildArchChecker env.hostArch)) d
        rw [hpair] at hnb
        cases r with
        | error e => simp [cmdBuild, hpn, hpair]; exact fun h => absurd h hnb
        | ok img2 =>
            simp [cmdBuild, hpn, hpair, (resolve_someNotAll env fl img2 hsome hnotall).1]
            exact fun h => absurd h hnb
  case _ =>
    intro hpn hbl hgoi harch hgm hami
    have hwo := wrapper_ok env fl t bp img hbl hgoi hgm harch
    simp [cmdBuild, hpn, hwo, (resolve_someNotAll env fl img hsome hnotall).2 hami]

/-- Claim C2 (witness): `build ami --aws-bucket mybucket` fails with the
partial-config error and never reaches the build engine. -/
theorem c2_fail_fast_incomplete_upload_witness :
    Event.buildExec "centos-9-ami-x86_64" ∉ (cmdBuild (envOk imgAmi) flagsBucketOnly "ami").2 ∧
    (cmdBuild (envOk imgAmi) flagsBucketOnly "ami").1 = .error .invalidUploadConfig :=
  ⟨(c2_fail_fast_incomplete_upload (envOk imgAmi) flagsBucketOnly "ami" "centos-9-ami-x86_64"
      bpEmpty imgAmi (by decide) (by decide)).1,
   (c2_fail_fast_incomplete_upload (envOk imgAmi) flagsBucketOnly "ami" "centos-9-ami-x86_64"
      bpEmpty imgAmi (by decide) (by decide)).2 rfl rfl rfl rfl rfl rfl⟩

/-- Claim C3 (counterexample): a cross-architecture build fails with the
architecture-mismatch error while manifest generation never ran, contrary to
the claim that the failure comes after manifest generation has succeeded. -/
theorem c3_claimed_timing_false :
    (cmdBuild (envOk imgArm) flagsArm "qcow2").1 =
      .error (.archMismatch "aarch64" "x86_64") ∧
    Event.manifestGen ∉ (cmdBuild (envOk imgArm) flagsArm "qcow2").2 :=
  ⟨rfl, by decide⟩

/-- Claim C3 (amended): when the resolved architecture differs from the
host's, the build invocation fails with the architecture-mismatch error
before manifest generation is invoked and before the build engine runs. -/
theorem c3_arch_mismatch_before_manifest (env : Env) (fl : Flags) (t d : String)
    (bp : Blueprint) (img : ImageDescriptor)
    (hpn : env.progressNew = .ok ()) (hbl : env.blueprintLoad = .ok bp)
    (hgoi : env.getOneImage = .ok img) (hne : img.arch ≠ env.hostArch) :
    (cmdBuild env fl t).1 = .error (.archMismatch img.arch env.hostArch) ∧
    Event.manifestGen ∉ (cmdBuild env fl t).2 ∧
    Event.buildExec d ∉ (cmdBuild env fl t).2 := by
  have hwm := wrapper_mismatch env fl t bp img hbl hgoi hne
  refine ⟨?_, ?_, ?_⟩ <;> simp [cmdBuild, hpn, hwm]

/-- Claim C3 (witness): the amended theorem applied to a concrete
cross-architecture build. -/
theorem c3_arch_mismatch_before_manifest_witness :
    (cmdBuild (envOk imgArm) flagsArm "qcow2").1 =
      .error (.archMismatch "aarch64" "x86_64") ∧
    Event.manifestGen ∉ (cmdBuild (envOk imgArm) flagsArm "qcow2").2 ∧
    Event.buildExec "fedora-42-qcow2-aarch64" ∉ (cmdBuild (envOk imgArm) flagsArm "qcow2").2 :=
  c3_arch_mismatch_before_manifest (envOk imgArm) flagsArm "qcow2" "fedora-42-qcow2-aarch64"
    bpEmpty imgArm rfl rfl rfl (by decide)

/-- Claim C4 (counterexample): in a concrete manifest run both the
resolution event and the manifest pulse occur, but the resolution does not
occur before the pulse. -/
theorem c4_claimed_resolve_before_pulse_false :
    Event.resolveImage "fedora-42" "qcow2" "x86_64" ∈
      (cmdManifestWrapper (envOk imgQcow) flagsFedora "qcow2" none).2 ∧
    Event.pulse "Manifest generation step" ∈
      (cmdManifestWrapper (envOk imgQcow) flagsFedora "qcow2" none).2 ∧
    ¬ occursBefore isResolveImage isManifestPulse
      (cmdManifestWrapper (envOk imgQcow) flagsFedora "qcow2" none).2 := by
  decide

/-- Claim C4 (amended): within the manifest stage, the progress pulse and
the detail message are reported strictly before the image descriptor is
resolved. -/
theorem c4_pulse_before_resolve (env : Env) (fl : Flags) (t a b c : String)
    (chk : Option (String → Except Err Unit))
    (h : Event.resolveImage a b c ∈ (cmdManifestWrapper env fl t chk).2) :
    (cmdManifestWrapper env fl t chk).2.filterMap resolvePulseTag = [1, 2, 0] := by
  unfold cmdManifestWrapper at h ⊢
  repeat' split at h
  all_goals simp_all [resolvePulseTag]

/-- Claim C4 (witness): the amended theorem applied to a concrete manifest
run. -/
theorem c4_pulse_before_resolve_witness :
    (cmdManifestWrapper (envOk imgQcow) flagsFedora "qcow2" none).2.filterMap resolvePulseTag =
      [1, 2, 0] :=
  c4_pulse_before_resolve (envOk imgQcow) flagsFedora "qcow2" "fedora-42" "qcow2" "x86_64"
    none (by decide)

/-- Claim C5: a build invocation whose resolved architecture string differs
from the host's fails with the architecture-mismatch error, while
`cmdManifest` never returns an architecture-mismatch error and never runs an
architecture check. -/
theorem c5_arch_check_only_on_build (env env2 : Env) (fl fl2 : Flags)
    (t t2 a b c s : String) (bp : Blueprint) (img : ImageDescriptor)
    (hpn : env.progressNew = .ok ()) (hbl : env.blueprintLoad = .ok bp)
    (hgoi : env.getOneImage = .ok img) (harch : img.arch = a) (hne : a ≠ env.hostArch) :
    (cmdBuild env fl t).1 = .error (.archMismatch a env.hostArch) ∧
    (cmdManifest env2 fl2 t2).1 ≠ .error (.archMismatch b c) ∧
    Event.archCheck s ∉ (cmdManifest env2 fl2 t2).2 := by
  subst harch
  refine ⟨?_, ?_, ?_⟩
  case _ =>
    have hwm := wrapper_mismatch env fl t bp img hbl hgoi hne
    simp [cmdBuild, hpn, hwm]
  case _ =>
    cases hpn2 : env2.progressNew with
    | error e => simp [cmdManifest, hpn2]
    | ok u =>
        rcases hpair : cmdManifestWrapper env2 fl2 t2 none with ⟨r, wtr⟩
        cases r with
        | error e =>
            have hx := wrapper_err_ext env2 fl2 t2 e (by rw [hpair])
            rcases hx with ⟨x, rfl⟩
            simp [cmdManifest, hpn2, hpair]
        | ok img2 => simp [cmdManifest, hpn2, hpair]
  case _ =>
    cases hpn2 : env2.progressNew with
    | error e => simp [cmdManifest, hpn2]
    | ok u =>
        rcases hpair : cmdManifestWrapper env2 fl2 t2 none with ⟨r, wtr⟩
        have hnc := wrapper_none_no_archCheck env2 fl2 t2 s
        rw [hpair] at hnc
        cases r with
        | error e => simp [cmdManifest, hpn2, hpair]; exact hnc
        | ok img2 => simp [cmdManifest, hpn2, hpair]; exact hnc

/-- Claim C5 (witness): the theorem applied to a concrete cross-architecture
request: `build` fails with the mismatch error, `manifest` does not. -/
theorem c5_arch_check_only_on_build_witness :
    (cmdBuild (envOk imgArm) flagsArm "qcow2").1 =
      .error (.archMismatch "aarch64" "x86_64") ∧
    (cmdManifest (envOk imgArm) flagsArm "qcow2").1 ≠
      .error (.archMismatch "aarch64" "x86_64") ∧
    Event.archCheck "aarch64" ∉ (cmdManifest (envOk imgArm) flagsArm "qcow2").2 :=
  c5_arch_check_only_on_build (envOk imgArm) (envOk imgArm) flagsArm flagsArm "qcow2" "qcow2"
    "aarch64" "aarch64" "x86_64" "aarch64" bpEmpty imgArm rfl rfl rfl rfl (by decide)

/-- Claim C6: when `--output-dir` is unset, the directory handed to the build
stage is `outputNameFor`, i.e. the string `distro-imageType-arch` built from
the resolved image descriptor. -/
theorem c6_default_output_dir (env : Env) (fl : Flags) (t d : String) (img : ImageDescriptor)
    (hout : fl.outputDir = "")
    (hw : (cmdManifestWrapper env fl t (some (buildArchChecker env.hostArch))).1 = .ok img)
    (hmem : Event.buildExec d ∈ (cmdBuild env fl t).2) :
    d = outputNameFor img ∧
    outputNameFor img = img.distro ++ "-" ++ img.imgType ++ "-" ++ img.arch := by
  refine ⟨?_, rfl⟩
  cases hpn : env.progressNew with
  | error e => simp [cmdBuild, hpn] at hmem
  | ok u =>
      rcases hpair : cmdManifestWrapper env fl t (some (buildArchChecker env.hostArch)) with ⟨r, wtr⟩
      rw [hpair] at hw
      have hnb := wrapper_no_buildExec env fl t (some (buildArchChecker env.hostArch)) d
      rw [hpair] at hnb
      cases r with
      | error e => exact absurd hw (by simp)
      | ok img2 =>
          have himg : img2 = img := by simpa using hw
          subst himg
          simp only [cmdBuild, hpn, hpair, List.mem_cons, List.mem_append,
                     List.mem_singleton] at hmem
          rcases hmem with h | h | h
          · exact absurd h (by simp)
          · exact absurd h (by simp)
          · rcases h with (h | h) | h
            · exact absurd h hnb
            · have := resolve_buildExec_dir env fl img2 d h
              simpa [effectiveOutputDir, hout] using this
            · exact absurd h (by simp)

/-- Claim C6 (witness): the default output directory of a concrete build is
the `distro-imageType-arch` string of the resolved descriptor. -/
theorem c6_default_output_dir_witness :
    "centos-9-ami-x86_64" = outputNameFor imgAmi ∧
    outputNameFor imgAmi = imgAmi.distro ++ "-" ++ imgAmi.imgType ++ "-" ++ imgAmi.arch :=
  c6_default_output_dir (envOk imgAmi) flagsAws "ami" "centos-9-ami-x86_64" imgAmi rfl rfl
    (by decide)

/-- Claim C7: with no upload flag supplied, the upload client is never
invoked (no access check, no transfer), and a build whose external stages
all succeed completes successfully. -/
theorem c7_no_upload_flags (env : Env) (fl : Flags) (t p : String) (bp : Blueprint)
    (img : ImageDescriptor) (hany : anyUploadFlagSet fl = false) :
    Event.uploadAccessCheck ∉ (cmdBuild env fl t).2 ∧
    Event.dataTransfer p ∉ (cmdBuild env fl t).2 ∧
    (env.progressNew = .ok () → env.blueprintLoad = .ok bp → env.getOneImage = .ok img →
      img.arch = env.hostArch → env.generateManifest = .ok () → env.buildImage = .ok () →
      (cmdBuild env fl t).1 = .ok ()) := by
  refine ⟨?_, ?_, ?_⟩
  case _ =>
    cases hpn : env.progressNew with
    | error e => simp [cmdBuild, hpn]
    | ok u =>
        rcases hpair : cmdManifestWrapper env fl t (some (buildArchChecker env.hostArch)) with ⟨r, wtr⟩
        have hna := wrapper_no_accessCheck env fl t (some (buildArchChecker env.hostArch))
        rw [hpair] at hna
        cases r with
        | error e => simp [cmdBuild, hpn, hpair]; exact fun h => absurd h hna
        | ok img2 =>
            simp [cmdBuild, hpn, hpair, resolve_noflags env fl img2 hany,
                  buildPhase_none_trace]
            exact fun h => absurd h hna
  case _ =>
    cases hpn : env.progressNew with
    | error e => simp [cmdBuild, hpn]
    | ok u =>
        rcases hpair : cmdManifestWrapper env fl t (some (buildArchChecker env.hostArch)) with ⟨r, wtr⟩
        have hnt := wrapper_no_transfer env fl t (some (buildArchChecker env.hostArch)) p
        rw [hpair] at hnt
        cases r with
        | error e => simp [cmdBuild, hpn, hpair]; exact fun h => absurd h hnt
        | ok img2 =>
            simp [cmdBuild, hpn, hpair, resolve_noflags env fl img2 hany,
                  buildPhase_none_trace]
            exact fun h => absurd h hnt
  case _ =>
    intro hpn hbl hgoi harch hgm hbi
    have hwo := wrapper_ok env fl t bp img hbl hgoi hgm harch
    simp [cmdBuild, hpn, hwo, resolve_noflags env fl img hany, buildPhase, hbi]

/-- Claim C7 (witness): a concrete build with no upload flags performs no
access check and no transfer and succeeds. -/
theorem c7_no_upload_flags_witness :
    Event.uploadAccessCheck ∉ (cmdBuild (envOk imgQcow) flagsBare "qcow2").2 ∧
    Event.dataTransfer "fedora-42-qcow2-x86_64/qcow2/disk.qcow2" ∉
      (cmdBuild (envOk imgQcow) flagsBare "qcow2").2 ∧
    (cmdBuild (envOk imgQcow) flagsBare "qcow2").1 = .ok () :=
  ⟨(c7_no_upload_flags (envOk imgQcow) flagsBare "qcow2"
      "fedora-42-qcow2-x86_64/qcow2/disk.qcow2" bpEmpty imgQcow rfl).1,
   (c7_no_upload_flags (envOk imgQcow) flagsBare "qcow2"
      "fedora-42-qcow2-x86_64/qcow2/disk.qcow2" bpEmpty imgQcow rfl).2.1,
   (c7_no_upload_flags (envOk imgQcow) flagsBare "qcow2"
      "fedora-42-qcow2-x86_64/qcow2/disk.qcow2" bpEmpty imgQcow rfl).2.2
     rfl rfl rfl rfl rfl rfl⟩

/-- Claim C8: at most one data transfer occurs per invocation, and when one
occurs the build engine has already returned success and the transfer comes
after the build execution. -/
theorem c8_at_most_one_upload_after_build (env : Env) (fl : Flags) (t p : String) :
    (cmdBuild env fl t).2.countP isDataTransfer ≤ 1 ∧
    (Event.dataTransfer p ∈ (cmdBuild env fl t).2 →
      env.buildImage = .ok () ∧
      (cmdBuild env fl t).2.filterMap buildThenTransferTag = [false, true]) := by
  cases hpn : env.progressNew with
  | error e =>
      constructor
      · simp [cmdBuild, hpn, List.countP_cons, isDataTransfer]
      · intro h; simp [cmdBuild, hpn] at h
  | ok u =>
      rcases hpair : cmdManifestWrapper env fl t (some (buildArchChecker env.hostArch)) with ⟨r, wtr⟩
      have hnt : ∀ q, Event.dataTransfer q ∉ wtr := by
        intro q
        have := wrapper_no_transfer env fl t (some (buildArchChecker env.hostArch)) q
        rwa [hpair] at this
      have hcw : wtr.countP isDataTransfer = 0 := by
        rw [List.countP_eq_zero]
        intro a ha
        have hb := wrapper_events_bound env fl t (some (buildArchChecker env.hostArch)) a
        rw [hpair] at hb
        simp [isDataTransfer_false_manifestStage a (hb ha)]
      have hbw : wtr.filterMap buildThenTransferTag = [] := by
        rw [List.filterMap_eq_nil_iff]
        intro a ha
        have hb := wrapper_events_bound env fl t (some (buildArchChecker env.hostArch)) a
        rw [hpair] at hb
        exact btTag_none_manifestStage a (hb ha)
      cases r with
      | error e =>
          constructor
          · simp [cmdBuild, hpn, hpair, List.countP_cons, List.countP_append,
                  isDataTransfer, hcw]
          · intro h
            simp [cmdBuild, hpn, hpair] at h
            exact absurd h (hnt p)
      | ok img =>
          constructor
          · by_cases hex : ∃ q, Event.dataTransfer q ∈ (resolveUploadPhase env fl img).2
            · obtain ⟨q, hq⟩ := hex
              have hshape := resolve_transfer_shape env fl img q hq
              simp [cmdBuild, hpn, hpair, List.countP_cons, List.countP_append,
                    isDataTransfer, hcw, hshape.2]
            · have hcr : (resolveUploadPhase env fl img).2.countP isDataTransfer = 0 := by
                rw [List.countP_eq_zero]
                intro a ha
                cases a <;> simp [isDataTransfer]
                case dataTransfer s => exact hex ⟨s, ha⟩
              simp [cmdBuild, hpn, hpair, List.countP_cons, List.countP_append,
                    isDataTransfer, hcw, hcr]
          · intro h
            simp only [cmdBuild, hpn, hpair, List.mem_cons, List.mem_append,
                       List.mem_singleton] at h
            rcases h with h | h | h
            · exact absurd h (by simp)
            · exact absurd h (by simp)
            · rcases h with (h | h) | h
              · exact absurd h (hnt p)
              · have hshape := resolve_transfer_shape env fl img p h
                refine ⟨hshape.1, ?_⟩
                simp [cmdBuild, hpn, hpair, List.filterMap_append, hbw, hshape.2,
                      buildThenTransferTag]
              · exact absurd h (by simp)

/-- Claim C8 (witness): the invariant applied to a concrete upload-enabled
build in which the transfer occurs. -/
theorem c8_at_most_one_upload_after_build_witness :
    (cmdBuild (envOk imgAmi) flagsAws "ami").2.countP isDataTransfer ≤ 1 ∧
    ((envOk imgAmi).buildImage = .ok () ∧
     (cmdBuild (envOk imgAmi) flagsAws "ami").2.filterMap buildThenTransferTag =
       [false, true]) :=
  ⟨(c8_at_most_one_upload_after_build (envOk imgAmi) flagsAws "ami"
      "centos-9-ami-x86_64/ami/image.raw").1,
   (c8_at_most_one_upload_after_build (envOk imgAmi) flagsAws "ami"
      "centos-9-ami-x86_64/ami/image.raw").2 (by decide)⟩

/-- Claim C9: for an image type without upload support, a build with no
upload flags succeeds with no upload attempt, while a build with any upload
flag fails fatally before the build engine runs. -/
theorem c9_unsupported_upload_soft_unless_flags (env : Env) (flA flB : Flags)
    (t p d : String) (bp : Blueprint) (img : ImageDescriptor)
    (hpn : env.progressNew = .ok ()) (hbl : env.blueprintLoad = .ok bp)
    (hgoi : env.getOneImage = .ok img) (harch : img.arch = env.hostArch)
    (hgm : env.generateManifest = .ok ()) (hbi : env.buildImage = .ok ())
    (hne : img.imgType ≠ "ami")
    (hA : anyUploadFlagSet flA = false) (hB : anyUploadFlagSet flB = true) :
    ((cmdBuild env flA t).1 = .ok () ∧
     Event.dataTransfer p ∉ (cmdBuild env flA t).2 ∧
     Event.uploadAccessCheck ∉ (cmdBuild env flA t).2) ∧
    ((cmdBuild env flB t).1 = .error (.uploadUnsupportedWithFlags img.imgType) ∧
     Event.buildExec d ∉ (cmdBuild env flB t).2) := by
  constructor
  case _ =>
    have hwo := wrapper_ok env flA t bp img hbl hgoi hgm harch
    refine ⟨?_, ?_, ?_⟩
    · simp [cmdBuild, hpn, hwo, resolve_noflags env flA img hA, buildPhase, hbi]
    · simp [cmdBuild, hpn, hwo, resolve_noflags env flA img hA, buildPhase_none_trace]
    · simp [cmdBuild, hpn, hwo, resolve_noflags env flA img hA, buildPhase_none_trace]
  case _ =>
    have hwo := wrapper_ok env flB t bp img hbl hgoi hgm harch
    have hru := resolve_unsupported_withflags env flB img hne hB
    constructor
    · simp [cmdBuild, hpn, hwo, hru]
    · simp [cmdBuild, hpn, hwo, hru]

/-- Claim C9 (witness): for a qcow2 build, no upload flags means success
without upload, and a lone bucket flag means a fatal error with no build. -/
theorem c9_unsupported_upload_soft_unless_flags_witness :
    (((cmdBuild (envOk imgQcow) flagsBare "qcow2").1 = .ok () ∧
      Event.dataTransfer "fedora-42-qcow2-x86_64/qcow2/disk.qcow2" ∉
        (cmdBuild (envOk imgQcow) flagsBare "qcow2").2 ∧
      Event.uploadAccessCheck ∉ (cmdBuild (envOk imgQcow) flagsBare "qcow2").2) ∧
     ((cmdBuild (envOk imgQcow) flagsBucketOnly "qcow2").1 =
        .error (.uploadUnsupportedWithFlags "qcow2") ∧
      Event.buildExec "fedora-42-qcow2-x86_64" ∉
        (cmdBuild (envOk imgQcow) flagsBucketOnly "qcow2").2)) :=
  c9_unsupported_upload_soft_unless_flags (envOk imgQcow) flagsBare flagsBucketOnly "qcow2"
    "fedora-42-qcow2-x86_64/qcow2/disk.qcow2" "fedora-42-qcow2-x86_64" bpEmpty imgQcow
    rfl rfl rfl rfl rfl rfl (by decide) (by decide) (by decide)

/-- Claim C10: for every build invocation, when `--progress` is "auto" and
`--verbose` is set the progress reporter is created with kind "verbose",
otherwise with exactly the kind given by `--progress`; exactly one reporter
is created. -/
theorem c10_progress_kind (env : Env) (fl : Flags) (t : String) :
    createdKinds (cmdBuild env fl t).2 =
      [if fl.progress == "auto" && fl.verbose then "verbose" else fl.progress] := by
  cases hpn : env.progressNew with
  | error e => simp [cmdBuild, hpn, createdKinds, createTag, progressFromCmd]
  | ok u =>
      rcases hw : cmdManifestWrapper env fl t (some (buildArchChecker env.hostArch)) with ⟨r, wtr⟩
      have hwnil : List.filterMap createTag wtr = [] := by
        rw [List.filterMap_eq_nil_iff]
        intro a ha
        have hb := wrapper_events_bound env fl t (some (buildArchChecker env.hostArch)) a
        rw [hw] at hb
        exact createTag_none_manifestStage a (hb ha)
      cases r with
      | error e =>
          simp [cmdBuild, hpn, hw, createdKinds, createTag, progressFromCmd,
                List.filterMap_append, hwnil]
      | ok img =>
          have hrnil : List.filterMap createTag (resolveUploadPhase env fl img).2 = [] := by
            rw [List.filterMap_eq_nil_iff]
            intro a ha
            exact createTag_none_uploadBuildStage a (resolve_events_bound env fl img a ha)
          simp [cmdBuild, hpn, hw, createdKinds, createTag, progressFromCmd,
                List.filterMap_append, hwnil, hrnil]

end ImageBuilderCli
